import Mathlib

/-!
Verification development for the authentication subsystem of the
secure-community-management-system repository.

The embedding covers, translated from the JavaScript source:
  * the user repository read/write operations over an explicit relational
    store (`DB`), following the SQL in `userRepository` (soft-delete
    filtering, LEFT JOIN on the roles table);
  * the authentication service (`register`, `login`, `refreshToken`,
    `sanitizeUser`, the token generators/verifiers) from `authService`;
  * the two Express middlewares `authenticate` and `authorize`;
  * the HTTP controllers for register/login/me from `authController`,
    with the validators from `utils/validation`.

JavaScript objects that matter for field-presence claims (the sanitized
user, the attached request identity context) are modelled as association
lists of key/value pairs (`Obj`), so that "the object has no
password_hash field" is a statement about keys, not about an `Option`
being `none`.  JSON-irrelevant columns of the users table
(profile_image_url, email_verified, created_at, updated_at, permissions)
are elided: no claim mentions them and they flow through unchanged.

Effectful steps that claims quantify over (password hashing, password
verification, the INSERT, the last-login UPDATE) are recorded in an
explicit event trace returned alongside the result, so that "the hasher
is never invoked on this path" is a provable statement.

External collaborators are parameters: bcrypt's `compare` is an
arbitrary function `String → String → Bool`, bcrypt's `hash` an
arbitrary `String → String`, and the JWT wire-format decoder an
arbitrary partial map `String → Option Token` (a token string that is
not in the map is malformed, exactly as `jwt.verify` throws
`JsonWebTokenError` on garbage).
-/

namespace SCMS

/-- JavaScript values appearing in the objects we track. -/
inductive JSVal where
  | str (s : String)
  | num (n : Int)
  | bool (b : Bool)
  | null
  | jsUndefined
deriving DecidableEq, Repr

/-- A JavaScript object, as an association list of fields. -/
abbrev Obj := List (String × JSVal)

/-- Property read `o[k]`; a missing key reads as `undefined`. -/
def objGet (o : Obj) (k : String) : JSVal :=
  match o.find? (fun kv => kv.1 = k) with
  | some kv => kv.2
  | none => .jsUndefined

/-- `delete o[k]` (on an object without duplicate keys). -/
def deleteKey (o : Obj) (k : String) : Obj :=
  o.filter (fun kv => kv.1 ≠ k)

/-- Whether the object has field `k` at all. -/
def hasKey (o : Obj) (k : String) : Bool :=
  o.any (fun kv => kv.1 = k)

/-- A JavaScript number-or-missing value, as received in a request body
field such as `roleId`: `undefined`, `null`, or a number. -/
inductive JSNum where
  | jsUndefined
  | null
  | num (n : Int)
deriving DecidableEq, Repr

/-- JavaScript truthiness of a `JSNum` (`undefined`, `null`, `0` are falsy). -/
def JSNum.truthy : JSNum → Bool
  | .num n => n != 0
  | _ => false

/-- `x || d` for a numeric body field with numeric default (used for
`roleId: roleId || 5` in `AuthService.register`). -/
def jsOrNum (x : JSNum) (d : Int) : Int :=
  match x with
  | .num n => if n != 0 then n else d
  | _ => d

/-- `x || null` for a numeric body field (used for `municipalityId || null`
in `UserRepository.create`). -/
def jsOrNull (x : JSNum) : Option Int :=
  match x with
  | .num n => if n != 0 then some n else none
  | _ => none

/-- `x ? f(x) : null` / `x || null` for an optional string (an empty
string is falsy in JavaScript). -/
def strOrNull : Option String → Option String
  | none => none
  | some s => if s = "" then none else some s

/-- `s.startsWith(p)` at the character level. -/
def strStartsWith (s p : String) : Bool :=
  decide (s.data.take p.data.length = p.data)

/-- `s.substring(n)` at the character level (drop the first `n`
characters). -/
def strDrop (s : String) (n : Nat) : String :=
  String.mk (s.data.drop n)

/-- `s.trim()`: strip leading and trailing whitespace. -/
def jsTrim (s : String) : String :=
  String.mk (((s.data.dropWhile Char.isWhitespace).reverse.dropWhile Char.isWhitespace).reverse)

/- ### Relational store (`users` and `roles` tables) -/

/-- A row of the `roles` table (columns used by the auth core). -/
structure RoleRow where
  id : Int
  role_name : String
deriving DecidableEq, Repr

/-- A row of the `users` table (columns used by the auth core). -/
structure UserRow where
  id : Int
  username : String
  email : String
  password_hash : String
  role_id : Int
  municipality_id : Option Int
  first_name : Option String
  last_name : Option String
  phone : Option String
  is_active : Bool
  last_login : Option Int
  deleted_at : Option Int
deriving DecidableEq, Repr

/-- The relational store: both tables plus the serial id counter that
backs `RETURNING id` on insert. -/
structure DB where
  users : List UserRow
  roles : List RoleRow
  nextId : Int
deriving DecidableEq, Repr

/-- The joined user record returned by the repository SELECTs:
user columns LEFT JOINed with `roles.role_name`.  `password_hash` is
`some` on the `findByEmail`/`findByUsername` read path and `none` on the
`findById` read path, whose SELECT list omits that column. -/
structure User where
  id : Int
  username : String
  email : String
  password_hash : Option String
  role_id : Int
  municipality_id : Option Int
  first_name : Option String
  last_name : Option String
  phone : Option String
  is_active : Bool
  last_login : Option Int
  role_name : Option String
deriving DecidableEq, Repr

/-- `LEFT JOIN roles r ON u.role_id = r.id`, projecting `r.role_name`. -/
def joinRoleName (db : DB) (r : UserRow) : Option String :=
  (db.roles.find? (fun ro => ro.id = r.role_id)).map (fun ro => ro.role_name)

/-- `deleted_at IS NULL`. -/
def notDeleted (r : UserRow) : Bool := r.deleted_at.isNone

/-- Build the joined `User` from a row; `withHash` says whether the
SELECT list includes `password_hash`. -/
def rowToUser (db : DB) (withHash : Bool) (r : UserRow) : User :=
  { id := r.id
    username := r.username
    email := r.email
    password_hash := if withHash then some r.password_hash else none
    role_id := r.role_id
    municipality_id := r.municipality_id
    first_name := r.first_name
    last_name := r.last_name
    phone := r.phone
    is_active := r.is_active
    last_login := r.last_login
    role_name := joinRoleName db r }

/-- `UserRepository.findByEmail`: exact email match among non-deleted rows,
SELECT list includes `password_hash`. -/
def findByEmail (db : DB) (email : String) : Option User :=
  (db.users.find? (fun u => u.email = email && notDeleted u)).map (rowToUser db true)

/-- `UserRepository.findByUsername`: exact username match among non-deleted
rows, SELECT list includes `password_hash`. -/
def findByUsername (db : DB) (username : String) : Option User :=
  (db.users.find? (fun u => u.username = username && notDeleted u)).map (rowToUser db true)

/-- `UserRepository.findById`: id match among non-deleted rows; the SELECT
list of this read path omits `password_hash`. -/
def findById (db : DB) (id : Int) : Option User :=
  (db.users.find? (fun u => u.id = id && notDeleted u)).map (rowToUser db false)

/-- `UserRepository.emailExists`: `SELECT 1 ... WHERE email = $1 AND
deleted_at IS NULL`. -/
def emailExists (db : DB) (email : String) : Bool :=
  db.users.any (fun u => u.email = email && notDeleted u)

/-- `UserRepository.usernameExists`. -/
def usernameExists (db : DB) (username : String) : Bool :=
  db.users.any (fun u => u.username = username && notDeleted u)

/-- The argument object of `UserRepository.create` as assembled by
`AuthService.register`. -/
structure CreateData where
  username : String
  email : String
  passwordHash : String
  roleId : Int
  municipalityId : JSNum
  firstName : Option String
  lastName : Option String
  phone : Option String

/-- `UserRepository.create`: INSERT with `is_active = true`, the `|| null`
coalescing of the VALUES list, and `RETURNING` the new row. -/
def createUser (db : DB) (d : CreateData) : UserRow × DB :=
  let row : UserRow :=
    { id := db.nextId
      username := d.username
      email := d.email
      password_hash := d.passwordHash
      role_id := d.roleId
      municipality_id := jsOrNull d.municipalityId
      first_name := strOrNull d.firstName
      last_name := strOrNull d.lastName
      phone := strOrNull d.phone
      is_active := true
      last_login := none
      deleted_at := none }
  (row, { db with users := db.users ++ [row], nextId := db.nextId + 1 })

/-- `UserRepository.updateLastLogin`: `UPDATE users SET last_login =
CURRENT_TIMESTAMP WHERE id = $1`. -/
def updateLastLogin (db : DB) (id : Int) (now : Int) : DB :=
  { db with
    users := db.users.map (fun u => if u.id = id then { u with last_login := some now } else u) }

/- ### Token codec (jsonwebtoken + the two payload builders) -/

/-- A JWT payload as built by the service.  `userId` and `type` are
present in both token kinds; the profile claims are `undefined` in a
refresh payload (the refresh payload object simply does not carry them)
and may be `null` in an access payload when the joined column was NULL. -/
structure Payload where
  userId : Int
  username : JSVal
  email : JSVal
  roleId : JSVal
  roleName : JSVal
  municipalityId : JSVal
  type : String
deriving DecidableEq, Repr

/-- A signed token: payload, the secret it was signed with, and the
issued-at/expiry timestamps embedded by `jwt.sign`. -/
structure Token where
  payload : Payload
  secret : String
  iat : Int
  exp : Int
deriving DecidableEq, Repr

/-- Process-wide auth configuration (`config/auth`): the two kind-specific
secrets and expiry durations. -/
structure Config where
  accessSecret : String
  refreshSecret : String
  accessExpiresIn : Int
  refreshExpiresIn : Int

/-- `jwt.sign(payload, secret, { expiresIn })` at clock time `now`. -/
def jwtSign (p : Payload) (secret : String) (now expiresIn : Int) : Token :=
  { payload := p, secret := secret, iat := now, exp := now + expiresIn }

/-- The two failure kinds of `jwt.verify`: `TokenExpiredError` and
`JsonWebTokenError`. -/
inductive JwtError where
  | expired
  | malformed
deriving DecidableEq, Repr

/-- `jwt.verify(tokenString, secret)` at clock time `now`, over a wire
decoder `decode`.  A string the decoder does not recognise, or a token
signed with a different secret, fails signature validation
(`JsonWebTokenError`); a recognised, correctly-signed token past its
embedded expiry fails with `TokenExpiredError`. -/
def jwtVerify (decode : String → Option Token) (tokStr : String) (secret : String)
    (now : Int) : Except JwtError Payload :=
  match decode tokStr with
  | none => .error .malformed
  | some t =>
    if t.secret ≠ secret then .error .malformed
    else if t.exp ≤ now then .error .expired
    else .ok t.payload

/-- JSVal of an optional DB string column (NULL reads as `null`). -/
def optStrVal : Option String → JSVal
  | some s => .str s
  | none => .null

/-- JSVal of an optional DB integer column (NULL reads as `null`). -/
def optIntVal : Option Int → JSVal
  | some n => .num n
  | none => .null

/-- `AuthService.generateAccessToken`: full profile claim set plus the
kind discriminator `"access"`, signed with the access secret. -/
def generateAccessToken (cfg : Config) (user : User) (now : Int) : Token :=
  jwtSign
    { userId := user.id
      username := .str user.username
      email := .str user.email
      roleId := .num user.role_id
      roleName := optStrVal user.role_name
      municipalityId := optIntVal user.municipality_id
      type := "access" }
    cfg.accessSecret now cfg.accessExpiresIn

/-- `AuthService.generateRefreshToken`: only `userId` and the kind
discriminator `"refresh"`, signed with the refresh secret; the profile
claims are absent (`undefined`). -/
def generateRefreshToken (cfg : Config) (user : User) (now : Int) : Token :=
  jwtSign
    { userId := user.id
      username := .jsUndefined
      email := .jsUndefined
      roleId := .jsUndefined
      roleName := .jsUndefined
      municipalityId := .jsUndefined
      type := "refresh" }
    cfg.refreshSecret now cfg.refreshExpiresIn

/-- `AuthService.verifyAccessToken`. -/
def verifyAccessToken (decode : String → Option Token) (cfg : Config)
    (tokStr : String) (now : Int) : Except JwtError Payload :=
  jwtVerify decode tokStr cfg.accessSecret now

/-- `AuthService.verifyRefreshToken`. -/
def verifyRefreshToken (decode : String → Option Token) (cfg : Config)
    (tokStr : String) (now : Int) : Except JwtError Payload :=
  jwtVerify decode tokStr cfg.refreshSecret now

/- ### Authentication service -/

/-- Service-level failures, one per distinct thrown error of
`authService` (`error.message`) plus the two propagated jwt errors. -/
inductive AuthErr where
  | emailRegistered
  | usernameTaken
  | invalidCredentials
  | accountInactive
  | invalidTokenType
  | userNotFound
  | tokenExpired
  | tokenMalformed
  | internal
deriving DecidableEq, Repr

/-- The effectful steps the claims quantify over, recorded in order. -/
inductive Event where
  | hashPassword
  | verifyPassword
  | dbCreate
  | dbUpdateLastLogin
deriving DecidableEq, Repr

/-- The mutable-object semantics of `AuthService.sanitizeUser` over an
explicit heap of objects: `{...user}` allocates a fresh copy at the end
of the store, `delete sanitized.password_hash` mutates only that copy,
and the reference to the copy is returned.  The input reference and
every other object in the store are untouched. -/
def sanitizeUser (store : List Obj) (r : Nat) : List Obj × Nat :=
  let sanitized := deleteKey (store.getD r []) "password_hash"
  (store ++ [sanitized], store.length)

/-- The value `this.sanitizeUser(user)` denotes: run `sanitizeUser` on a
store holding `user` and read back the returned reference. -/
def sanitizeUserVal (user : Obj) : Obj :=
  let res := sanitizeUser [user] 0
  res.1.getD res.2 []

/-- The joined user record as the JavaScript object the service sees:
fields in SELECT order, with `password_hash` present only on the read
paths whose SELECT includes it. -/
def User.toObj (u : User) : Obj :=
  [("id", .num u.id), ("username", .str u.username), ("email", .str u.email)]
    ++ (match u.password_hash with
        | some h => [("password_hash", JSVal.str h)]
        | none => [])
    ++ [("role_id", .num u.role_id),
        ("municipality_id", optIntVal u.municipality_id),
        ("first_name", optStrVal u.first_name),
        ("last_name", optStrVal u.last_name),
        ("phone", optStrVal u.phone),
        ("is_active", .bool u.is_active),
        ("last_login", optIntVal u.last_login),
        ("role_name", optStrVal u.role_name)]

/-- Result of `register` and `login`: sanitized user object plus both
tokens. -/
structure AuthResult where
  user : Obj
  accessToken : Token
  refreshToken : Token
deriving DecidableEq, Repr

/-- Result of `refreshToken`: a new access token only — the returned
object has no other field. -/
structure RefreshResult where
  accessToken : Token
deriving DecidableEq, Repr

/-- The `userData` argument of `AuthService.register` as passed by the
controller. -/
structure RegisterData where
  username : String
  email : String
  password : String
  roleId : JSNum
  municipalityId : JSNum
  firstName : Option String
  lastName : Option String
  phone : Option String

/-- `AuthService.register`: duplicate checks first (email before
username), then hash, INSERT with `roleId || 5`, re-fetch by id for the
joined role data, issue both tokens, return the sanitized identity.
The `internal` branch is the JavaScript TypeError that would occur if
the re-fetch ever returned null; it is unreachable (the freshly
inserted row is never soft-deleted). -/
def register (hash : String → String) (cfg : Config) (db : DB)
    (d : RegisterData) (now : Int) :
    Except AuthErr AuthResult × DB × List Event :=
  if emailExists db d.email then (.error .emailRegistered, db, [])
  else if usernameExists db d.username then (.error .usernameTaken, db, [])
  else
    let passwordHash := hash d.password
    let res := createUser db
      { username := d.username
        email := d.email
        passwordHash := passwordHash
        roleId := jsOrNum d.roleId 5
        municipalityId := d.municipalityId
        firstName := d.firstName
        lastName := d.lastName
        phone := d.phone }
    match findById res.2 res.1.id with
    | none => (.error .internal, res.2, [.hashPassword, .dbCreate])
    | some fullUser =>
      (.ok { user := sanitizeUserVal fullUser.toObj
             accessToken := generateAccessToken cfg fullUser now
             refreshToken := generateRefreshToken cfg fullUser now },
       res.2, [.hashPassword, .dbCreate])

/-- The identifier resolution of `AuthService.login`: email first, then
username. -/
def resolveLogin (db : DB) (loginId : String) : Option User :=
  match findByEmail db loginId with
  | some u => some u
  | none => findByUsername db loginId

/-- `AuthService.login`: resolve, activation check before password
verification, bcrypt compare, blocking last-login update, issue both
tokens, return the sanitized identity. -/
def login (compare : String → String → Bool) (cfg : Config) (db : DB)
    (loginId : String) (password : String) (now : Int) :
    Except AuthErr AuthResult × DB × List Event :=
  match resolveLogin db loginId with
  | none => (.error .invalidCredentials, db, [])
  | some user =>
    if !user.is_active then (.error .accountInactive, db, [])
    else if !compare password (user.password_hash.getD "") then
      (.error .invalidCredentials, db, [.verifyPassword])
    else
      let db1 := updateLastLogin db user.id now
      (.ok { user := sanitizeUserVal user.toObj
             accessToken := generateAccessToken cfg user now
             refreshToken := generateRefreshToken cfg user now },
       db1, [.verifyPassword, .dbUpdateLastLogin])

/-- `AuthService.refreshToken`: verify against the refresh secret,
enforce the `"refresh"` kind discriminator, re-resolve the identity by
the embedded id, re-check the activation flag, and issue a new access
token only. -/
def refreshToken (decode : String → Option Token) (cfg : Config) (db : DB)
    (tokStr : String) (now : Int) : Except AuthErr RefreshResult :=
  match verifyRefreshToken decode cfg tokStr now with
  | .error .expired => .error .tokenExpired
  | .error .malformed => .error .tokenMalformed
  | .ok decoded =>
    if decoded.type ≠ "refresh" then .error .invalidTokenType
    else
      match findById db decoded.userId with
      | none => .error .userNotFound
      | some user =>
        if !user.is_active then .error .accountInactive
        else .ok { accessToken := generateAccessToken cfg user now }

/- ### Authentication middleware (`authenticate`) -/

/-- Outcome of the authentication middleware: an error response with its
HTTP status and outward code, or `next()` invoked with the identity
context attached to the request.  Only the `success` constructor carries
a context: a rejected request has no identity attached. -/
inductive AuthOutcome where
  | fail (status : Nat) (code : String)
  | success (ctx : Obj)
deriving DecidableEq, Repr

/-- The `authenticate` middleware: bearer extraction from the
authorization header, access-token verification, kind-discriminator
check, and attachment of exactly the six decoded claim fields. -/
def authenticate (decode : String → Option Token) (cfg : Config)
    (authHeader : Option String) (now : Int) : AuthOutcome :=
  match authHeader with
  | none => .fail 401 "NO_TOKEN"
  | some h =>
    if !strStartsWith h "Bearer " then .fail 401 "NO_TOKEN"
    else
      match verifyAccessToken decode cfg (strDrop h 7) now with
      | .error .expired => .fail 401 "TOKEN_EXPIRED"
      | .error .malformed => .fail 401 "INVALID_TOKEN"
      | .ok decoded =>
        if decoded.type ≠ "access" then .fail 401 "INVALID_TOKEN_TYPE"
        else .success
          [("userId", .num decoded.userId),
           ("username", decoded.username),
           ("email", decoded.email),
           ("roleId", decoded.roleId),
           ("roleName", decoded.roleName),
           ("municipalityId", decoded.municipalityId)]

/- ### Authorization middleware (`authorize`) -/

/-- The `allowedRoles` argument: a single role name or an array. -/
inductive RolesArg where
  | one (r : String)
  | many (rs : List String)

/-- `Array.isArray(allowedRoles) ? allowedRoles : [allowedRoles]`. -/
def normalizeRoles : RolesArg → List String
  | .one r => [r]
  | .many rs => rs

/-- Outcome of the authorization middleware.  The `forbidden` response
carries exactly the diagnosable data the source puts in the body:
the required role list and the requester's role value. -/
inductive AuthzOutcome where
  | notAuthenticated (status : Nat) (code : String)
  | forbidden (status : Nat) (code : String) (requiredRoles : List String) (userRole : JSVal)
  | allowed
deriving DecidableEq, Repr

/-- `roles.includes(v)` for a string array against a JavaScript value:
a non-string value is never a member. -/
def rolesIncludes (roles : List String) (v : JSVal) : Bool :=
  match v with
  | .str s => roles.contains s
  | _ => false

/-- The `authorize(allowedRoles)` middleware applied to a request whose
attached identity context is `reqUser` (`none` when `authenticate` did
not run or did not attach one). -/
def authorize (allowedRoles : RolesArg) (reqUser : Option Obj) : AuthzOutcome :=
  let roles := normalizeRoles allowedRoles
  match reqUser with
  | none => .notAuthenticated 401 "NOT_AUTHENTICATED"
  | some user =>
    if !rolesIncludes roles (objGet user "roleName") then
      .forbidden 403 "FORBIDDEN" roles (objGet user "roleName")
    else .allowed

/- ### Input validators (`utils/validation`) -/

/-- The `/^[^\s@]+@[^\s@]+\.[^\s@]+$/` test: exactly one `@`, no
whitespace anywhere, a nonempty part on each side of the `@`, and the
part after the `@` contains a `.` with at least one character on each
side of it. -/
def matchesEmailRegex (s : String) : Bool :=
  let cs := s.data
  let a := cs.takeWhile (fun c => c ≠ '@')
  let b := (cs.dropWhile (fun c => c ≠ '@')).drop 1
  decide (cs.count '@' = 1)
    && cs.all (fun c => !c.isWhitespace)
    && !a.isEmpty && !b.isEmpty
    && ((b.drop 1).dropLast.contains '.')

/-- `isValidEmail`: regex test plus the 255-length cap (the `!email`
guard is subsumed: the regex rejects the empty string). -/
def isValidEmail (email : String) : Bool :=
  matchesEmailRegex email && email.length ≤ 255

/-- Character class `[a-zA-Z0-9_-]`. -/
def isUsernameChar (c : Char) : Bool :=
  (('a' ≤ c && c ≤ 'z') || ('A' ≤ c && c ≤ 'Z') || ('0' ≤ c && c ≤ '9')
    || c = '_' || c = '-')

/-- `isValidUsername`: `/^[a-zA-Z0-9_-]{3,100}$/`. -/
def isValidUsername (username : String) : Bool :=
  username.data.all isUsernameChar && 3 ≤ username.length && username.length ≤ 100

/-- `isValidPassword`: required and at least 8 characters; the error
branch carries the message. -/
def isValidPassword (password : Option String) : Except String Unit :=
  match password with
  | none => .error "Password is required"
  | some p =>
    if p = "" then .error "Password is required"
    else if p.length < 8 then .error "Password must be at least 8 characters long"
    else .ok ()

/-- `sanitizeInput` on a possibly-absent body field: a missing or empty
value sanitizes to the empty string, otherwise trim. -/
def sanitizeInput : Option String → String
  | none => ""
  | some s => jsTrim s

/-- JavaScript falsiness of a possibly-absent string body field
(`undefined` and the empty string are falsy). -/
def strFalsy : Option String → Bool
  | none => true
  | some s => s = ""

/- ### HTTP controllers (`authController`) -/

/-- Request body of `POST /auth/register`. -/
structure RegisterBody where
  username : Option String
  email : Option String
  password : Option String
  roleId : JSNum
  municipalityId : JSNum
  firstName : Option String
  lastName : Option String
  phone : Option String

/-- Response of the register controller: 201 with user and both tokens,
or an error response with status and outward code. -/
inductive RegisterResponse where
  | success (status : Nat) (user : Obj) (accessToken refreshToken : Token)
  | failure (status : Nat) (code : String)
deriving DecidableEq, Repr

/-- `AuthController.register`: missing-field check, input sanitization,
the three validators in order, then the service call; `Email already
registered` and `Username already taken` both map to 400
`DUPLICATE_USER`, anything else to 500 `REGISTRATION_ERROR`. -/
def controllerRegister (hash : String → String) (cfg : Config) (db : DB)
    (b : RegisterBody) (now : Int) : RegisterResponse × DB :=
  if strFalsy b.username || strFalsy b.email || strFalsy b.password then
    (.failure 400 "MISSING_FIELDS", db)
  else
    let sanitizedUsername := sanitizeInput b.username
    let sanitizedEmail := sanitizeInput b.email
    if !isValidEmail sanitizedEmail then (.failure 400 "INVALID_EMAIL", db)
    else if !isValidUsername sanitizedUsername then (.failure 400 "INVALID_USERNAME", db)
    else
      match isValidPassword b.password with
      | .error _ => (.failure 400 "INVALID_PASSWORD", db)
      | .ok _ =>
        match register hash cfg db
          { username := sanitizedUsername
            email := sanitizedEmail
            password := b.password.getD ""
            roleId := b.roleId
            municipalityId := b.municipalityId
            firstName := (strOrNull b.firstName).map jsTrim
            lastName := (strOrNull b.lastName).map jsTrim
            phone := (strOrNull b.phone).map jsTrim } now with
        | (.ok r, db1, _) => (.success 201 r.user r.accessToken r.refreshToken, db1)
        | (.error .emailRegistered, db1, _) => (.failure 400 "DUPLICATE_USER", db1)
        | (.error .usernameTaken, db1, _) => (.failure 400 "DUPLICATE_USER", db1)
        | (.error _, db1, _) => (.failure 500 "REGISTRATION_ERROR", db1)

/-- Request body of `POST /auth/login`. -/
structure LoginBody where
  login : Option String
  password : Option String

/-- Response of the login controller; the failure constructor carries
status, outward code, and the outward message. -/
inductive LoginResponse where
  | success (status : Nat) (user : Obj) (accessToken refreshToken : Token)
  | failure (status : Nat) (code : String) (message : String)
deriving DecidableEq, Repr

/-- `AuthController.login`: missing-field check, sanitize the login
field, call the service; `Invalid credentials` and `Account is
inactive` both map to 401 `AUTHENTICATION_FAILED` with the error's own
message, anything else to 500 `LOGIN_ERROR`. -/
def controllerLogin (compare : String → String → Bool) (cfg : Config) (db : DB)
    (b : LoginBody) (now : Int) : LoginResponse × DB :=
  if strFalsy b.login || strFalsy b.password then
    (.failure 400 "MISSING_FIELDS" "Missing required fields", db)
  else
    let sanitizedLogin := sanitizeInput b.login
    match login compare cfg db sanitizedLogin (b.password.getD "") now with
    | (.ok r, db1, _) => (.success 200 r.user r.accessToken r.refreshToken, db1)
    | (.error .invalidCredentials, db1, _) =>
      (.failure 401 "AUTHENTICATION_FAILED" "Invalid credentials", db1)
    | (.error .accountInactive, db1, _) =>
      (.failure 401 "AUTHENTICATION_FAILED" "Account is inactive", db1)
    | (.error _, db1, _) => (.failure 500 "LOGIN_ERROR" "Login failed", db1)

/-- Response of the me controller. -/
inductive MeResponse where
  | success (status : Nat) (user : Obj)
  | failure (status : Nat) (code : String)
deriving DecidableEq, Repr

/-- `AuthController.me`: read `req.user.userId` (set by `authenticate`),
re-fetch by id, 404 when absent, otherwise 200 with the sanitized user.
A non-numeric `userId` in the context would make the repository query
throw, surfacing as 500 `GET_USER_ERROR`. -/
def controllerMe (db : DB) (reqUser : Obj) : MeResponse :=
  match objGet reqUser "userId" with
  | .num n =>
    match findById db n with
    | none => .failure 404 "USER_NOT_FOUND"
    | some user => .success 200 (sanitizeUserVal user.toObj)
  | _ => .failure 500 "GET_USER_ERROR"

/- ### Concrete fixtures (used to instantiate the theorems) -/

/-- A concrete configuration with distinct secrets. -/
def cfg0 : Config := ⟨"asec", "rsec", 900, 604800⟩

/-- A stand-in bcrypt: hashing appends a tag, comparison re-hashes. -/
def hash0 : String → String := fun p => p ++ "#h"

/-- The matching verifier for `hash0`. -/
def compare0 : String → String → Bool := fun p h => h = p ++ "#h"

/-- An active stored user. -/
def aliceRow : UserRow :=
  ⟨1, "alice", "alice@ex.com", "pw#h", 5, none, none, none, none, true, none, none⟩

/-- A deactivated stored user. -/
def bobRow : UserRow :=
  ⟨2, "bob", "bob@ex.com", "bob#h", 1, some 3, some "Bob", none, none, false, none, none⟩

/-- A concrete store with the two users and two roles. -/
def db0 : DB := ⟨[aliceRow, bobRow], [⟨5, "viewer"⟩, ⟨1, "admin"⟩], 3⟩

/-- Alice as seen on the hash-carrying read path. -/
def aliceU : User := rowToUser db0 true aliceRow

/-- Bob as seen on the hash-carrying read path. -/
def bobU : User := rowToUser db0 true bobRow

/-- A concrete access token for alice, issued at time 0. -/
def atok0 : Token := generateAccessToken cfg0 aliceU 0

/-- A concrete refresh token for alice, issued at time 0. -/
def rtok0 : Token := generateRefreshToken cfg0 aliceU 0

/-- A concrete wire decoder recognising exactly the two token strings. -/
def decode0 : String → Option Token :=
  fun s => if s = "atok" then some atok0 else if s = "rtok" then some rtok0 else none

/-- A valid registration body for a fresh user. -/
def regBody0 : RegisterBody :=
  ⟨some "carol", some "carol@ex.com", some "longpass", .jsUndefined, .jsUndefined, none, none, none⟩

/-- Component extractors used to state concrete instantiations. -/
def regRespUser : RegisterResponse → Obj
  | .success _ u _ _ => u
  | .failure _ _ => []

def regRespStatus : RegisterResponse → Nat
  | .success st _ _ _ => st
  | .failure st _ => st

def dummyToken : Token := ⟨⟨0, .jsUndefined, .jsUndefined, .jsUndefined, .jsUndefined, .jsUndefined, ""⟩, "", 0, 0⟩

def regRespTokA : RegisterResponse → Token
  | .success _ _ tk _ => tk
  | .failure _ _ => dummyToken

def regRespTokR : RegisterResponse → Token
  | .success _ _ _ rk => rk
  | .failure _ _ => dummyToken

def loginRespUser : LoginResponse → Obj
  | .success _ u _ _ => u
  | .failure _ _ _ => []

def loginRespTokA : LoginResponse → Token
  | .success _ _ tk _ => tk
  | .failure _ _ _ => dummyToken

def loginRespTokR : LoginResponse → Token
  | .success _ _ _ rk => rk
  | .failure _ _ _ => dummyToken

def meRespUser : MeResponse → Obj
  | .success _ u => u
  | .failure _ _ => []

def authOutcomeCtx : AuthOutcome → Obj
  | .success ctx => ctx
  | .fail _ _ => []

/- ### Shared lemmas -/

/-- Deleting a key removes it: the filtered object no longer has it. -/
theorem hasKey_deleteKey (o : Obj) (k : String) : hasKey (deleteKey o k) k = false := by
  simp only [hasKey, deleteKey]
  rw [List.any_eq_false]
  intro kv hmem
  have h := (List.mem_filter.mp hmem).right
  simp only [ne_eq, decide_not, Bool.not_eq_true', decide_eq_false_iff_not] at h
  simpa using h

/-- The value `this.sanitizeUser(user)` returns is exactly the copy of
`user` with `password_hash` removed. -/
theorem sanitizeUserVal_eq (o : Obj) :
    sanitizeUserVal o = deleteKey o "password_hash" := rfl

/-- The sanitized user value never has the `password_hash` field. -/
theorem hasKey_sanitizeUserVal (o : Obj) :
    hasKey (sanitizeUserVal o) "password_hash" = false := by
  rw [sanitizeUserVal_eq]; exact hasKey_deleteKey o "password_hash"

/- ### Claims -/

/-- C9: `sanitizeUser` returns a reference to a fresh object equal to the
input object with the `password_hash` field removed (and in particular
without that field); every object already in the store — in particular
the original at `r`, which keeps its `password_hash` field if it had
one — is left exactly as it was. -/
theorem C9_sanitizeUser_copy_and_frame (store : List Obj) (r : Nat)
    (h : r < store.length) :
    ((sanitizeUser store r).1.getD (sanitizeUser store r).2 [] =
        deleteKey (store.getD r []) "password_hash") ∧
    (hasKey ((sanitizeUser store r).1.getD (sanitizeUser store r).2 []) "password_hash"
        = false) ∧
    (∀ i, i < store.length → (sanitizeUser store r).1.getD i [] = store.getD i []) ∧
    ((sanitizeUser store r).1.getD r [] = store.getD r []) := by
  refine ⟨?_, ?_, ?_, ?_⟩
  · show (store ++ [deleteKey (store.getD r []) "password_hash"]).getD store.length [] = _
    rw [List.getD_append_right _ _ _ _ (Nat.le_refl _)]
    simp
  · show hasKey ((store ++ [deleteKey (store.getD r []) "password_hash"]).getD store.length []) _ = false
    rw [List.getD_append_right _ _ _ _ (Nat.le_refl _)]
    simpa using hasKey_deleteKey (store.getD r []) "password_hash"
  · intro i hi
    exact List.getD_append _ _ _ _ hi
  · exact List.getD_append _ _ _ _ h

/-- C3: when the login identifier resolves to a stored user whose
activation flag is false, `login` fails with `AccountInactive` for every
supplied password and every hasher, the trace is empty (so the password
verification step is never invoked), and the store is unchanged. -/
theorem C3_inactive_account_before_verify
    (compare : String → String → Bool) (cfg : Config) (db : DB)
    (loginId password : String) (now : Int) (u : User)
    (hres : resolveLogin db loginId = some u)
    (hina : u.is_active = false) :
    login compare cfg db loginId password now = (.error .accountInactive, db, []) := by
  unfold login
  rw [hres]
  simp [hina]

/-- C5: when the email matches an existing non-deleted record, `register`
fails with the duplicate-email error, the store is returned unchanged
(no create), and the trace is empty (no password hashing) — with no
hypothesis on the username, so the email error also takes precedence
when the username collides as well. -/
theorem C5_duplicate_email_before_any_write
    (hash : String → String) (cfg : Config) (db : DB) (d : RegisterData) (now : Int)
    (hdup : emailExists db d.email = true) :
    register hash cfg db d now = (.error .emailRegistered, db, []) := by
  unfold register
  simp [hdup]

/-- The row `register` passes to the INSERT (the `createUser` argument it
builds, including the `roleId || 5` default). -/
def registeredRow (hash : String → String) (db : DB) (d : RegisterData) : UserRow :=
  (createUser db
    { username := d.username, email := d.email, passwordHash := hash d.password,
      roleId := jsOrNum d.roleId 5, municipalityId := d.municipalityId,
      firstName := d.firstName, lastName := d.lastName, phone := d.phone }).1

/-- C10: on the non-duplicate path, `register` persists exactly one new
row; its role id is the default 5 whenever the supplied `roleId` is
falsy (absent, `null`, or `0`) and the supplied value whenever it is a
nonzero number. -/
theorem C10_default_role_on_falsy
    (hash : String → String) (cfg : Config) (db : DB) (d : RegisterData) (now : Int)
    (hne : emailExists db d.email = false)
    (hnu : usernameExists db d.username = false) :
    (((register hash cfg db d now).2.1).users = db.users ++ [registeredRow hash db d]) ∧
    (JSNum.truthy d.roleId = false → (registeredRow hash db d).role_id = 5) ∧
    (∀ n, d.roleId = .num n → n ≠ 0 → (registeredRow hash db d).role_id = n) := by
  refine ⟨?_, ?_, ?_⟩
  · unfold register
    simp only [hne, hnu, Bool.false_eq_true, if_false]
    split <;> simp [registeredRow, createUser]
  · intro htr
    simp only [registeredRow, createUser]
    cases hr : d.roleId with
    | jsUndefined => rfl
    | null => rfl
    | num n =>
      rw [hr] at htr
      simp only [JSNum.truthy] at htr
      simp [jsOrNum, htr]
  · intro n hn hnz
    simp only [registeredRow, createUser]
    rw [hn]
    simp [jsOrNum, hnz]

/-- Witness for C9 on a one-object store whose object carries a
`password_hash` field. -/
theorem C9_witness :
    (0 < ([[("id", JSVal.num 1), ("password_hash", JSVal.str "h")]] : List Obj).length) ∧
    ((sanitizeUser [[("id", JSVal.num 1), ("password_hash", JSVal.str "h")]] 0).1.getD
        (sanitizeUser [[("id", JSVal.num 1), ("password_hash", JSVal.str "h")]] 0).2 [] =
      deleteKey (([[("id", JSVal.num 1), ("password_hash", JSVal.str "h")]] : List Obj).getD 0 [])
        "password_hash") ∧
    (hasKey ((sanitizeUser [[("id", JSVal.num 1), ("password_hash", JSVal.str "h")]] 0).1.getD
        (sanitizeUser [[("id", JSVal.num 1), ("password_hash", JSVal.str "h")]] 0).2 [])
        "password_hash" = false) ∧
    ((sanitizeUser [[("id", JSVal.num 1), ("password_hash", JSVal.str "h")]] 0).1.getD 0 [] =
      ([[("id", JSVal.num 1), ("password_hash", JSVal.str "h")]] : List Obj).getD 0 []) :=
  ⟨by decide,
   (C9_sanitizeUser_copy_and_frame [[("id", JSVal.num 1), ("password_hash", JSVal.str "h")]] 0
     (by decide)).1,
   (C9_sanitizeUser_copy_and_frame [[("id", JSVal.num 1), ("password_hash", JSVal.str "h")]] 0
     (by decide)).2.1,
   (C9_sanitizeUser_copy_and_frame [[("id", JSVal.num 1), ("password_hash", JSVal.str "h")]] 0
     (by decide)).2.2.2⟩

/-- Witness for C3: bob is stored but deactivated; login with any
password fails with the inactive error, with an empty trace. -/
theorem C3_witness :
    (resolveLogin db0 "bob" = some bobU) ∧ (bobU.is_active = false) ∧
    (login compare0 cfg0 db0 "bob" "whatever" 100 =
      (.error .accountInactive, db0, [])) :=
  ⟨by decide, by decide,
   C3_inactive_account_before_verify compare0 cfg0 db0 "bob" "whatever" 100 bobU
     (by decide) (by decide)⟩

/-- Witness for C5: alice's email is already registered. -/
theorem C5_witness :
    (emailExists db0 "alice@ex.com" = true) ∧
    (register hash0 cfg0 db0 ⟨"alice", "alice@ex.com", "newpass123", .jsUndefined, .jsUndefined,
        none, none, none⟩ 100 = (.error .emailRegistered, db0, [])) :=
  ⟨by decide,
   C5_duplicate_email_before_any_write hash0 cfg0 db0 _ 100 (by decide)⟩

/-- Witness for C10: registering carol with `roleId = 0` persists the
default role id 5; registering carol with `roleId = 7` persists 7. -/
theorem C10_witness :
    (emailExists db0 "carol@ex.com" = false) ∧
    (usernameExists db0 "carol" = false) ∧
    (((register hash0 cfg0 db0 ⟨"carol", "carol@ex.com", "longpass", .num 0, .jsUndefined,
        none, none, none⟩ 100).2.1).users =
      db0.users ++ [registeredRow hash0 db0 ⟨"carol", "carol@ex.com", "longpass", .num 0,
        .jsUndefined, none, none, none⟩]) ∧
    ((registeredRow hash0 db0 ⟨"carol", "carol@ex.com", "longpass", .num 0, .jsUndefined,
        none, none, none⟩).role_id = 5) ∧
    ((registeredRow hash0 db0 ⟨"carol", "carol@ex.com", "longpass", .num 7, .jsUndefined,
        none, none, none⟩).role_id = 7) :=
  ⟨by decide, by decide,
   (C10_default_role_on_falsy hash0 cfg0 db0 _ 100 (by decide) (by decide)).1,
   (C10_default_role_on_falsy hash0 cfg0 db0 _ 100 (by decide) (by decide)).2.1 (by decide),
   (C10_default_role_on_falsy hash0 cfg0 db0
     ⟨"carol", "carol@ex.com", "longpass", .num 7, .jsUndefined, none, none, none⟩ 100
     (by decide) (by decide)).2.2 7 rfl (by decide)⟩

/-- C4: for a validly signed, unexpired token of kind `"refresh"`, the
refresh operation re-resolves the identity by the embedded user id:
`UserNotFound` when no identity is found, `AccountInactive` when the
freshly resolved identity is deactivated, and otherwise a result that
carries a new access token only, generated from the freshly resolved
identity (not from the refresh token's payload). -/
theorem C4_refresh_rereads_live_state
    (decode : String → Option Token) (cfg : Config) (db : DB)
    (s : String) (now : Int) (t : Token)
    (hdec : decode s = some t)
    (hsec : t.secret = cfg.refreshSecret)
    (hexp : now < t.exp)
    (hkind : t.payload.type = "refresh") :
    (findById db t.payload.userId = none →
      refreshToken decode cfg db s now = .error .userNotFound) ∧
    (∀ u, findById db t.payload.userId = some u → u.is_active = false →
      refreshToken decode cfg db s now = .error .accountInactive) ∧
    (∀ u, findById db t.payload.userId = some u → u.is_active = true →
      refreshToken decode cfg db s now = .ok { accessToken := generateAccessToken cfg u now }) := by
  have hnle : ¬ t.exp ≤ now := not_le.mpr hexp
  have hver : verifyRefreshToken decode cfg s now = .ok t.payload := by
    unfold verifyRefreshToken jwtVerify
    rw [hdec]
    simp [hsec, hnle]
  refine ⟨?_, ?_, ?_⟩
  · intro hf
    unfold refreshToken
    rw [hver]
    simp [hkind, hf]
  · intro u hf hina
    unfold refreshToken
    rw [hver]
    simp [hkind, hf, hina]
  · intro u hf hact
    unfold refreshToken
    rw [hver]
    simp [hkind, hf, hact]

/-- Witness for C4: alice's concrete refresh token at time 100 yields a
new access token generated from the freshly resolved (hash-free) read of
alice; bob's situation is covered by deactivating him in `db0`: a
refresh token embedding bob's id fails with AccountInactive. -/
theorem C4_witness :
    (decode0 "rtok" = some rtok0) ∧
    (rtok0.secret = cfg0.refreshSecret) ∧
    ((100 : Int) < rtok0.exp) ∧
    (rtok0.payload.type = "refresh") ∧
    (findById db0 rtok0.payload.userId = some (rowToUser db0 false aliceRow)) ∧
    (refreshToken decode0 cfg0 db0 "rtok" 100 =
      .ok { accessToken := generateAccessToken cfg0 (rowToUser db0 false aliceRow) 100 }) :=
  ⟨by decide, by decide, by decide, by decide, by decide,
   (C4_refresh_rereads_live_state decode0 cfg0 db0 "rtok" 100 rtok0
     (by decide) (by decide) (by decide) (by decide)).2.2
     (rowToUser db0 false aliceRow) (by decide) (by decide)⟩

/-- C7: the authentication gate fails with `NO_TOKEN` when the header is
absent or does not carry the bearer marker (the `fail` outcome carries
no identity context by construction); it maps an unrecognised or
wrongly-signed token to `INVALID_TOKEN` and an expired one to the
distinct code `TOKEN_EXPIRED`; and on success it attaches exactly the
six decoded claim fields. -/
theorem C7_authentication_gate
    (decode : String → Option Token) (cfg : Config) (now : Int) :
    (authenticate decode cfg none now = .fail 401 "NO_TOKEN") ∧
    (∀ h : String, strStartsWith h "Bearer " = false →
      authenticate decode cfg (some h) now = .fail 401 "NO_TOKEN") ∧
    (∀ h : String, strStartsWith h "Bearer " = true → decode (strDrop h 7) = none →
      authenticate decode cfg (some h) now = .fail 401 "INVALID_TOKEN") ∧
    (∀ (h : String) (t : Token), strStartsWith h "Bearer " = true →
      decode (strDrop h 7) = some t → t.secret ≠ cfg.accessSecret →
      authenticate decode cfg (some h) now = .fail 401 "INVALID_TOKEN") ∧
    (∀ (h : String) (t : Token), strStartsWith h "Bearer " = true →
      decode (strDrop h 7) = some t → t.secret = cfg.accessSecret → t.exp ≤ now →
      authenticate decode cfg (some h) now = .fail 401 "TOKEN_EXPIRED") ∧
    (∀ (h : String) (t : Token), strStartsWith h "Bearer " = true →
      decode (strDrop h 7) = some t → t.secret = cfg.accessSecret → now < t.exp →
      t.payload.type = "access" →
      authenticate decode cfg (some h) now = .success
        [("userId", .num t.payload.userId),
         ("username", t.payload.username),
         ("email", t.payload.email),
         ("roleId", t.payload.roleId),
         ("roleName", t.payload.roleName),
         ("municipalityId", t.payload.municipalityId)]) := by
  refine ⟨rfl, ?_, ?_, ?_, ?_, ?_⟩
  · intro h hbw
    unfold authenticate
    simp [hbw]
  · intro h hbw hdec
    unfold authenticate verifyAccessToken jwtVerify
    simp [hbw, hdec]
  · intro h t hbw hdec hsec
    unfold authenticate verifyAccessToken jwtVerify
    simp [hbw, hdec, hsec]
  · intro h t hbw hdec hsec hexp
    unfold authenticate verifyAccessToken jwtVerify
    simp [hbw, hdec, hsec, hexp]
  · intro h t hbw hdec hsec hexp hkind
    have hnle : ¬ t.exp ≤ now := not_le.mpr hexp
    unfold authenticate verifyAccessToken jwtVerify
    simp [hbw, hdec, hsec, hnle, hkind]

/-- Witness for C7 at concrete headers and tokens: missing header, wrong
marker, unrecognised token, expired token, and a successful attachment
of alice's six claims. -/
theorem C7_witness :
    (authenticate decode0 cfg0 none 100 = .fail 401 "NO_TOKEN") ∧
    (strStartsWith "Basic xyz" "Bearer " = false) ∧
    (authenticate decode0 cfg0 (some "Basic xyz") 100 = .fail 401 "NO_TOKEN") ∧
    (decode0 (strDrop "Bearer junk" 7) = none) ∧
    (authenticate decode0 cfg0 (some "Bearer junk") 100 = .fail 401 "INVALID_TOKEN") ∧
    (decode0 (strDrop "Bearer atok" 7) = some atok0) ∧
    (atok0.exp ≤ (10000 : Int)) ∧
    (authenticate decode0 cfg0 (some "Bearer atok") 10000 = .fail 401 "TOKEN_EXPIRED") ∧
    ((100 : Int) < atok0.exp) ∧
    (atok0.payload.type = "access") ∧
    (authenticate decode0 cfg0 (some "Bearer atok") 100 = .success
      [("userId", .num atok0.payload.userId),
       ("username", atok0.payload.username),
       ("email", atok0.payload.email),
       ("roleId", atok0.payload.roleId),
       ("roleName", atok0.payload.roleName),
       ("municipalityId", atok0.payload.municipalityId)]) :=
  ⟨(C7_authentication_gate decode0 cfg0 100).1,
   by decide,
   (C7_authentication_gate decode0 cfg0 100).2.1 "Basic xyz" (by decide),
   by decide,
   (C7_authentication_gate decode0 cfg0 100).2.2.1 "Bearer junk" (by decide) (by decide),
   by decide,
   by decide,
   (C7_authentication_gate decode0 cfg0 10000).2.2.2.2.1 "Bearer atok" atok0
     (by decide) (by decide) (by decide) (by decide),
   by decide,
   by decide,
   (C7_authentication_gate decode0 cfg0 100).2.2.2.2.2 "Bearer atok" atok0
     (by decide) (by decide) (by decide) (by decide) (by decide)⟩

/-- Inversion: the authentication gate only ever succeeds on a token
whose decoded kind discriminator is `"access"`. -/
theorem authenticate_success_kind
    (decode : String → Option Token) (cfg : Config) (hdr : Option String)
    (now : Int) (ctx : Obj)
    (h : authenticate decode cfg hdr now = .success ctx) :
    ∃ hs t, hdr = some hs ∧ decode (strDrop hs 7) = some t ∧
      t.payload.type = "access" := by
  cases hdr with
  | none => simp [authenticate] at h
  | some hs =>
    cases hbw : strStartsWith hs "Bearer " with
    | false => simp [authenticate, hbw] at h
    | true =>
      cases hdec : decode (strDrop hs 7) with
      | none => simp [authenticate, verifyAccessToken, jwtVerify, hbw, hdec] at h
      | some t =>
        refine ⟨hs, t, rfl, hdec, ?_⟩
        by_cases hsec : t.secret = cfg.accessSecret
        · by_cases hexp : t.exp ≤ now
          · simp [authenticate, verifyAccessToken, jwtVerify, hbw, hdec, hsec, hexp] at h
          · by_cases hkind : t.payload.type = "access"
            · exact hkind
            · simp [authenticate, verifyAccessToken, jwtVerify,
                hbw, hdec, hsec, hexp, hkind] at h
        · simp [authenticate, verifyAccessToken, jwtVerify, hbw, hdec, hsec] at h

/-- Inversion: the refresh operation only ever succeeds on a token whose
decoded kind discriminator is `"refresh"`. -/
theorem refreshToken_ok_kind
    (decode : String → Option Token) (cfg : Config) (db : DB)
    (s : String) (now : Int) (r : RefreshResult)
    (h : refreshToken decode cfg db s now = .ok r) :
    ∃ t, decode s = some t ∧ t.payload.type = "refresh" := by
  cases hdec : decode s with
  | none => simp [refreshToken, verifyRefreshToken, jwtVerify, hdec] at h
  | some t =>
    refine ⟨t, rfl, ?_⟩
    by_cases hsec : t.secret = cfg.refreshSecret
    · by_cases hexp : t.exp ≤ now
      · simp [refreshToken, verifyRefreshToken, jwtVerify, hdec, hsec, hexp] at h
      · by_cases hkind : t.payload.type = "refresh"
        · exact hkind
        · simp [refreshToken, verifyRefreshToken, jwtVerify, hdec, hsec, hexp, hkind] at h
    · simp [refreshToken, verifyRefreshToken, jwtVerify, hdec, hsec] at h

/-- C1: a token issued by `generateRefreshToken` never passes the
authentication gate as an access credential (its kind discriminator is
`"refresh"`, and the gate only succeeds on kind `"access"`), and a token
issued by `generateAccessToken` never makes the refresh operation
succeed — with no assumption that the two signing secrets differ. -/
theorem C1_kind_discriminator_separation
    (decode : String → Option Token) (cfg : Config) (db : DB)
    (u v : User) (iat1 iat2 now : Int) (hdr s : String)
    (h1 : decode (strDrop hdr 7) = some (generateRefreshToken cfg u iat1))
    (h2 : decode s = some (generateAccessToken cfg v iat2)) :
    (∀ ctx, authenticate decode cfg (some hdr) now ≠ .success ctx) ∧
    (∀ r, refreshToken decode cfg db s now ≠ .ok r) := by
  constructor
  · intro ctx hc
    obtain ⟨hs, t, hhs, hd, hty⟩ := authenticate_success_kind decode cfg (some hdr) now ctx hc
    injection hhs with hhs
    subst hhs
    rw [h1] at hd
    injection hd with hd
    subst hd
    simp [generateRefreshToken, jwtSign] at hty
  · intro r hc
    obtain ⟨t, hd, hty⟩ := refreshToken_ok_kind decode cfg db s now r hc
    rw [h2] at hd
    injection hd with hd
    subst hd
    simp [generateAccessToken, jwtSign] at hty

/-- Witness for C1: the concrete refresh token for alice is rejected by
the gate even though its signature would be checkable, and the concrete
access token is rejected by the refresh operation. -/
theorem C1_witness :
    (decode0 (strDrop "Bearer rtok" 7) = some (generateRefreshToken cfg0 aliceU 0)) ∧
    (decode0 "atok" = some (generateAccessToken cfg0 aliceU 0)) ∧
    (authenticate decode0 cfg0 (some "Bearer rtok") 100 ≠ .success []) ∧
    (refreshToken decode0 cfg0 db0 "atok" 100 ≠ .ok ⟨atok0⟩) :=
  ⟨by decide, by decide,
   (C1_kind_discriminator_separation decode0 cfg0 db0 aliceU aliceU 0 0 100
     "Bearer rtok" "atok" (by decide) (by decide)).1 [],
   (C1_kind_discriminator_separation decode0 cfg0 db0 aliceU aliceU 0 0 100
     "Bearer rtok" "atok" (by decide) (by decide)).2 ⟨atok0⟩⟩

/-- C8: the authorization gate fails with `NOT_AUTHENTICATED` when no
identity is attached; when the attached identity's role name is outside
the allowed set it denies with `FORBIDDEN`, surfacing exactly the
required role list and the actual role — and nothing else of the
identity, witnessed by the outcome depending only on the `roleName`
field of the context; and it permits the request when the role name is
in the allowed set. -/
theorem C8_authorization_gate (allowedRoles : RolesArg) :
    (authorize allowedRoles none = .notAuthenticated 401 "NOT_AUTHENTICATED") ∧
    (∀ (ctx : Obj) (s : String), objGet ctx "roleName" = .str s →
      (normalizeRoles allowedRoles).contains s = false →
      authorize allowedRoles (some ctx) =
        .forbidden 403 "FORBIDDEN" (normalizeRoles allowedRoles) (.str s)) ∧
    (∀ ctx ctx' : Obj, objGet ctx "roleName" = objGet ctx' "roleName" →
      authorize allowedRoles (some ctx) = authorize allowedRoles (some ctx')) ∧
    (∀ (ctx : Obj) (s : String), objGet ctx "roleName" = .str s →
      (normalizeRoles allowedRoles).contains s = true →
      authorize allowedRoles (some ctx) = .allowed) := by
  refine ⟨rfl, ?_, ?_, ?_⟩
  · intro ctx s hrole hmem
    simp [authorize, hrole, rolesIncludes, hmem]
    simp only [List.contains] at hmem
    simpa using hmem
  · intro ctx ctx' hrole
    simp only [authorize, hrole]
  · intro ctx s hrole hmem
    simp [authorize, hrole, rolesIncludes, hmem]
    simp only [List.contains] at hmem
    simpa using hmem

/-- Witness for C8: a viewer against a route restricted to admin and
manager is denied with both lists surfaced; an admin is allowed; the
denial is unchanged when the rest of the context differs. -/
theorem C8_witness :
    (objGet [("roleName", JSVal.str "viewer"), ("email", JSVal.str "v@ex.com")] "roleName" =
      .str "viewer") ∧
    ((normalizeRoles (.many ["admin", "manager"])).contains "viewer" = false) ∧
    (authorize (.many ["admin", "manager"])
        (some [("roleName", JSVal.str "viewer"), ("email", JSVal.str "v@ex.com")]) =
      .forbidden 403 "FORBIDDEN" ["admin", "manager"] (.str "viewer")) ∧
    (authorize (.many ["admin", "manager"])
        (some [("roleName", JSVal.str "viewer"), ("email", JSVal.str "v@ex.com")]) =
      authorize (.many ["admin", "manager"]) (some [("roleName", JSVal.str "viewer")])) ∧
    (authorize (.many ["admin", "manager"]) (some [("roleName", JSVal.str "admin")]) =
      .allowed) ∧
    (authorize (.many ["admin", "manager"]) none =
      .notAuthenticated 401 "NOT_AUTHENTICATED") :=
  ⟨by decide, by decide,
   (C8_authorization_gate (.many ["admin", "manager"])).2.1
     [("roleName", JSVal.str "viewer"), ("email", JSVal.str "v@ex.com")] "viewer"
     (by decide) (by decide),
   (C8_authorization_gate (.many ["admin", "manager"])).2.2.1
     [("roleName", JSVal.str "viewer"), ("email", JSVal.str "v@ex.com")]
     [("roleName", JSVal.str "viewer")] (by decide),
   (C8_authorization_gate (.many ["admin", "manager"])).2.2.2
     [("roleName", JSVal.str "admin")] "admin" (by decide) (by decide),
   (C8_authorization_gate (.many ["admin", "manager"])).1⟩

/-- C2: a login whose identifier resolves to an active stored user but
whose password fails verification, and a login whose identifier
resolves to no stored user, produce the very same outward response —
the identical 401 `AUTHENTICATION_FAILED` / `Invalid credentials`
failure — so the caller cannot tell an unknown user from a wrong
password. -/
theorem C2_invalid_credentials_indistinguishable
    (compare : String → String → Bool) (cfg : Config) (db : DB)
    (b1 b2 : LoginBody) (u : User) (now : Int)
    (h1l : strFalsy b1.login = false) (h1p : strFalsy b1.password = false)
    (h2l : strFalsy b2.login = false) (h2p : strFalsy b2.password = false)
    (hres1 : resolveLogin db (sanitizeInput b1.login) = some u)
    (hact : u.is_active = true)
    (hpw : compare (b1.password.getD "") (u.password_hash.getD "") = false)
    (hres2 : resolveLogin db (sanitizeInput b2.login) = none) :
    (controllerLogin compare cfg db b1 now =
      (.failure 401 "AUTHENTICATION_FAILED" "Invalid credentials", db)) ∧
    (controllerLogin compare cfg db b2 now =
      (.failure 401 "AUTHENTICATION_FAILED" "Invalid credentials", db)) ∧
    (controllerLogin compare cfg db b1 now = controllerLogin compare cfg db b2 now) := by
  have hl1 : login compare cfg db (sanitizeInput b1.login) (b1.password.getD "") now =
      (.error .invalidCredentials, db, [.verifyPassword]) := by
    unfold login
    rw [hres1]
    simp [hact, hpw]
  have hl2 : login compare cfg db (sanitizeInput b2.login) (b2.password.getD "") now =
      (.error .invalidCredentials, db, []) := by
    unfold login
    rw [hres2]
  have hc1 : controllerLogin compare cfg db b1 now =
      (.failure 401 "AUTHENTICATION_FAILED" "Invalid credentials", db) := by
    unfold controllerLogin
    simp [h1l, h1p, hl1]
  have hc2 : controllerLogin compare cfg db b2 now =
      (.failure 401 "AUTHENTICATION_FAILED" "Invalid credentials", db) := by
    unfold controllerLogin
    simp [h2l, h2p, hl2]
  exact ⟨hc1, hc2, hc1.trans hc2.symm⟩

/-- Witness for C2: alice with a wrong password versus a nonexistent
identifier — byte-identical outward responses. -/
theorem C2_witness :
    (strFalsy (some "alice") = false) ∧
    (strFalsy (some "wrongpw") = false) ∧
    (strFalsy (some "nobody") = false) ∧
    (resolveLogin db0 (sanitizeInput (some "alice")) = some aliceU) ∧
    (aliceU.is_active = true) ∧
    (compare0 ((some "wrongpw").getD "") (aliceU.password_hash.getD "") = false) ∧
    (resolveLogin db0 (sanitizeInput (some "nobody")) = none) ∧
    (controllerLogin compare0 cfg0 db0 ⟨some "alice", some "wrongpw"⟩ 100 =
      (.failure 401 "AUTHENTICATION_FAILED" "Invalid credentials", db0)) ∧
    (controllerLogin compare0 cfg0 db0 ⟨some "nobody", some "wrongpw"⟩ 100 =
      (.failure 401 "AUTHENTICATION_FAILED" "Invalid credentials", db0)) ∧
    (controllerLogin compare0 cfg0 db0 ⟨some "alice", some "wrongpw"⟩ 100 =
      controllerLogin compare0 cfg0 db0 ⟨some "nobody", some "wrongpw"⟩ 100) :=
  ⟨by decide, by decide, by decide, by decide, by decide, by decide, by decide,
   (C2_invalid_credentials_indistinguishable compare0 cfg0 db0
     ⟨some "alice", some "wrongpw"⟩ ⟨some "nobody", some "wrongpw"⟩ aliceU 100
     (by decide) (by decide) (by decide) (by decide) (by decide) (by decide)
     (by decide) (by decide)).1,
   (C2_invalid_credentials_indistinguishable compare0 cfg0 db0
     ⟨some "alice", some "wrongpw"⟩ ⟨some "nobody", some "wrongpw"⟩ aliceU 100
     (by decide) (by decide) (by decide) (by decide) (by decide) (by decide)
     (by decide) (by decide)).2.1,
   (C2_invalid_credentials_indistinguishable compare0 cfg0 db0
     ⟨some "alice", some "wrongpw"⟩ ⟨some "nobody", some "wrongpw"⟩ aliceU 100
     (by decide) (by decide) (by decide) (by decide) (by decide) (by decide)
     (by decide) (by decide)).2.2⟩

/-- Inversion: a successful `register` result carries a sanitized user
object. -/
theorem register_ok_sanitized
    (hash : String → String) (cfg : Config) (db : DB) (d : RegisterData) (now : Int)
    (r : AuthResult) (db1 : DB) (ev : List Event)
    (h : register hash cfg db d now = (.ok r, db1, ev)) :
    hasKey r.user "password_hash" = false := by
  unfold register at h
  repeat' split at h
  all_goals try simp at h
  all_goals repeat' split at h
  all_goals try simp at h
  obtain ⟨hok, -, -⟩ := h
  rw [← hok]
  exact hasKey_sanitizeUserVal _

/-- Inversion: a successful `login` result carries a sanitized user
object. -/
theorem login_ok_sanitized
    (compare : String → String → Bool) (cfg : Config) (db : DB)
    (loginId password : String) (now : Int)
    (r : AuthResult) (db1 : DB) (ev : List Event)
    (h : login compare cfg db loginId password now = (.ok r, db1, ev)) :
    hasKey r.user "password_hash" = false := by
  unfold login at h
  repeat' split at h
  all_goals try simp at h
  obtain ⟨hok, -, -⟩ := h
  rw [← hok]
  exact hasKey_sanitizeUserVal _

/-- Inversion: the identity context attached by the authentication gate
never carries a `password_hash` field. -/
theorem authenticate_success_ctx
    (decode : String → Option Token) (cfg : Config) (hdr : Option String)
    (now : Int) (ctx : Obj)
    (h : authenticate decode cfg hdr now = .success ctx) :
    hasKey ctx "password_hash" = false := by
  cases hdr with
  | none => simp [authenticate] at h
  | some hs =>
    cases hbw : strStartsWith hs "Bearer " with
    | false => simp [authenticate, hbw] at h
    | true =>
      cases hdec : decode (strDrop hs 7) with
      | none => simp [authenticate, verifyAccessToken, jwtVerify, hbw, hdec] at h
      | some t =>
        by_cases hsec : t.secret = cfg.accessSecret
        · by_cases hexp : t.exp ≤ now
          · simp [authenticate, verifyAccessToken, jwtVerify, hbw, hdec, hsec, hexp] at h
          · by_cases hkind : t.payload.type = "access"
            · have hctx : ctx =
                  [("userId", .num t.payload.userId),
                   ("username", t.payload.username),
                   ("email", t.payload.email),
                   ("roleId", t.payload.roleId),
                   ("roleName", t.payload.roleName),
                   ("municipalityId", t.payload.municipalityId)] := by
                have := h.symm
                simp [authenticate, verifyAccessToken, jwtVerify,
                  hbw, hdec, hsec, hexp, hkind] at this
                exact this
              rw [hctx]
              simp [hasKey]
            · simp [authenticate, verifyAccessToken, jwtVerify,
                hbw, hdec, hsec, hexp, hkind] at h
        · simp [authenticate, verifyAccessToken, jwtVerify, hbw, hdec, hsec] at h

/-- C6: every outward identity representation — the register response,
the login response, the me response, and the identity context attached
by the authentication gate — is free of the `password_hash` field. -/
theorem C6_no_password_hash_outward
    (hash : String → String) (compare : String → String → Bool)
    (decode : String → Option Token) (cfg : Config) (db : DB) (now : Int) :
    (∀ (b : RegisterBody) (st : Nat) (usr : Obj) (tk rk : Token) (db' : DB),
      controllerRegister hash cfg db b now = (.success st usr tk rk, db') →
      hasKey usr "password_hash" = false) ∧
    (∀ (b : LoginBody) (st : Nat) (usr : Obj) (tk rk : Token) (db' : DB),
      controllerLogin compare cfg db b now = (.success st usr tk rk, db') →
      hasKey usr "password_hash" = false) ∧
    (∀ (reqUser : Obj) (st : Nat) (usr : Obj),
      controllerMe db reqUser = .success st usr →
      hasKey usr "password_hash" = false) ∧
    (∀ (hdr : Option String) (ctx : Obj),
      authenticate decode cfg hdr now = .success ctx →
      hasKey ctx "password_hash" = false) := by
  refine ⟨?_, ?_, ?_, ?_⟩
  · intro b st usr tk rk db' h
    unfold controllerRegister at h
    repeat' split at h
    all_goals try simp at h
    all_goals repeat' split at h
    all_goals try simp at h
    rename_i x r db1 ev hreg
    obtain ⟨⟨-, husr, -, -⟩, -⟩ := h
    rw [← husr]
    exact register_ok_sanitized hash cfg db _ now r db1 ev hreg
  · intro b st usr tk rk db' h
    unfold controllerLogin at h
    repeat' split at h
    all_goals try simp at h
    all_goals repeat' split at h
    all_goals try simp at h
    rename_i x r db1 ev hlog
    obtain ⟨⟨-, husr, -, -⟩, -⟩ := h
    rw [← husr]
    exact login_ok_sanitized compare cfg db _ _ now r db1 ev hlog
  · intro reqUser st usr h
    unfold controllerMe at h
    repeat' split at h
    all_goals try simp at h
    obtain ⟨-, husr⟩ := h
    rw [← husr]
    exact hasKey_sanitizeUserVal _
  · intro hdr ctx h
    exact authenticate_success_ctx decode cfg hdr now ctx h

/-- Witness for C6 at concrete successful runs of all four outward
surfaces: carol's registration, alice's login, alice's me request, and
alice's authenticated context. -/
theorem C6_witness :
    (hasKey (regRespUser (controllerRegister hash0 cfg0 db0 regBody0 100).1)
      "password_hash" = false) ∧
    (hasKey (loginRespUser (controllerLogin compare0 cfg0 db0 ⟨some "alice", some "pw"⟩ 100).1)
      "password_hash" = false) ∧
    (hasKey (meRespUser (controllerMe db0 [("userId", JSVal.num 1)])) "password_hash" = false) ∧
    (hasKey (authOutcomeCtx (authenticate decode0 cfg0 (some "Bearer atok") 100))
      "password_hash" = false) :=
  ⟨(C6_no_password_hash_outward hash0 compare0 decode0 cfg0 db0 100).1 regBody0
     (regRespStatus (controllerRegister hash0 cfg0 db0 regBody0 100).1)
     (regRespUser (controllerRegister hash0 cfg0 db0 regBody0 100).1)
     (regRespTokA (controllerRegister hash0 cfg0 db0 regBody0 100).1)
     (regRespTokR (controllerRegister hash0 cfg0 db0 regBody0 100).1)
     (controllerRegister hash0 cfg0 db0 regBody0 100).2 (by decide),
   (C6_no_password_hash_outward hash0 compare0 decode0 cfg0 db0 100).2.1
     ⟨some "alice", some "pw"⟩ 200
     (loginRespUser (controllerLogin compare0 cfg0 db0 ⟨some "alice", some "pw"⟩ 100).1)
     (loginRespTokA (controllerLogin compare0 cfg0 db0 ⟨some "alice", some "pw"⟩ 100).1)
     (loginRespTokR (controllerLogin compare0 cfg0 db0 ⟨some "alice", some "pw"⟩ 100).1)
     (controllerLogin compare0 cfg0 db0 ⟨some "alice", some "pw"⟩ 100).2 (by decide),
   (C6_no_password_hash_outward hash0 compare0 decode0 cfg0 db0 100).2.2.1
     [("userId", JSVal.num 1)] 200
     (meRespUser (controllerMe db0 [("userId", JSVal.num 1)])) (by decide),
   (C6_no_password_hash_outward hash0 compare0 decode0 cfg0 db0 100).2.2.2
     (some "Bearer atok")
     (authOutcomeCtx (authenticate decode0 cfg0 (some "Bearer atok") 100)) (by decide)⟩

end SCMS
